import Mathlib

/-!
Verification of the image routes of PictoPy
(`src/backend/app/routes/images.py`).

The module under verification is a FastAPI router with three endpoints:
`get_all_images` (GET /), `toggle_favourite` (POST /toggle-favourite) and
`download_image` (GET /download/{image_id}).  We give a shallow embedding of
the three handlers.  The repository layer (`db_get_all_images`,
`db_toggle_image_favourite_status`) and the metadata parser
(`image_util_parse_metadata`) are imported from modules that are not part of
the excerpt; those are modelled from the specification, as marked on their
doc comments.  Everything else is translated directly from the Python source.

Python exception semantics that matter here: FastAPI's `HTTPException` is a
subclass of `Exception`, so a bare `except Exception` clause catches an
`HTTPException` raised inside its `try` block.  `str()` of an `HTTPException`
is `f"{status_code}: {detail}"`.  An attribute access on `None` raises
`AttributeError`.
-/

/-- A Python exception value as it can arise inside the handlers:
`ValidationError` from metadata parsing, `HTTPException` raised by a handler
itself, or `AttributeError` from an attribute access on `None`. -/
inductive PyExc where
  | validationError : String → PyExc
  | httpException : Nat → String → PyExc
  | attributeError : String → PyExc
deriving DecidableEq, Repr

/-- The `detail` payload of a FastAPI `HTTPException`: either a plain string
or a structured error body (the `ErrorResponse.model_dump()` dict of
`{success, error, message}`). -/
inductive Detail where
  | str : String → Detail
  | body : Bool → String → String → Detail
deriving DecidableEq, Repr

/-- `Detail.body` carries `success`, `error`, `message` in that order. -/
def Detail.isStructured : Detail → Bool
  | .str _ => false
  | .body _ _ _ => true

/-- An `HTTPException` as surfaced to the HTTP layer: status code plus
detail payload. -/
structure HTTPExc where
  status_code : Nat
  detail : Detail
deriving DecidableEq, Repr

/-- `str(e)` for the exceptions that can be formatted into a handler's
catch-all message.  For `HTTPException`, Python renders
`f"{status_code}: {detail}"`. -/
def pyExcStr : PyExc → String
  | .validationError m => m
  | .httpException code d => toString code ++ ": " ++ d
  | .attributeError m => m

/-- The raw, loosely-typed metadata mapping stored on a repository record,
before normalization.  A `none` field is a key absent from the mapping. -/
structure RawMetadata where
  name : Option String
  date_created : Option String
  width : Option Int
  height : Option Int
  file_location : Option String
  file_size : Option Int
  item_type : Option String
  latitude : Option Int
  longitude : Option Int
  location : Option String
deriving DecidableEq, Repr

/-- The `MetadataModel` pydantic response model of the source (source lines
18-28): required `name`, `width`, `height`, `file_location`, `file_size`,
`item_type`; the rest optional.  Latitude/longitude are opaque to every
claim, so their numeric type is embedded as `Int`. -/
structure MetadataModel where
  name : String
  date_created : Option String
  width : Int
  height : Int
  file_location : String
  file_size : Int
  item_type : String
  latitude : Option Int
  longitude : Option Int
  location : Option String
deriving DecidableEq, Repr

/-- Modelled from the spec: `image_util_parse_metadata` lives in
`app.utils.images`, which is not part of the excerpt.  Spec section 4.1:
`normalize(raw) -> Metadata` fails with `ValidationError` when `name`,
`width`, `height`, `fileLocation`, `fileSize` or `itemType` is missing;
optional fields pass through as absent, never defaulted. -/
def image_util_parse_metadata (raw : RawMetadata) : Except PyExc MetadataModel :=
  match raw.name, raw.width, raw.height, raw.file_location, raw.file_size, raw.item_type with
  | some n, some w, some h, some fl, some fsz, some it =>
      .ok ⟨n, raw.date_created, w, h, fl, fsz, it, raw.latitude, raw.longitude, raw.location⟩
  | _, _, _, _, _, _ => .error (.validationError "missing required metadata field")

/-- A raw image record as returned by the repository.  `isFavourite` is
`none` when the stored record lacks the field (the dict has no such key);
`tags` likewise. -/
structure RawImage where
  id : String
  path : String
  folder_id : String
  thumbnailPath : String
  metadata : RawMetadata
  isFavourite : Option Bool
  tags : Option (List String)
deriving DecidableEq, Repr

/-- The repository state: the stored sequence of records, in storage order. -/
abbrev DB : Type := List RawImage

/-- Spec section 3: `isTagged` is derived, true iff `tags` is non-empty
(an absent `tags` counts as empty). -/
def rawIsTagged (img : RawImage) : Bool :=
  !(img.tags.getD []).isEmpty

/-- Modelled from the spec: `db_get_all_images` lives in
`app.database.images`, which is not part of the excerpt.  Spec sections 4.2
and 6: with the filter present, exactly the records whose `isTagged` matches
are returned; with the filter absent, all records; the repository's order is
preserved. -/
def db_get_all_images (tagged : Option Bool) (db : DB) : List RawImage :=
  match tagged with
  | none => db
  | some b => db.filter (fun img => rawIsTagged img == b)

/-- A record with its `isFavourite` flag flipped, an absent flag counting as
`false`. -/
def flipRecord (img : RawImage) : RawImage :=
  ⟨img.id, img.path, img.folder_id, img.thumbnailPath, img.metadata,
   some (!(img.isFavourite.getD false)), img.tags⟩

/-- Modelled from the spec: `db_toggle_image_favourite_status` lives in
`app.database.images`, which is not part of the excerpt.  Spec section 6:
`toggleFavouriteStatus(id) -> bool` flips the `isFavourite` flag (absent
counts as `false`) and returns whether the toggle applied, i.e. whether a
record with that id exists.  Returns the flag together with the updated
state. -/
def db_toggle_image_favourite_status (image_id : String) (db : DB) : Bool × DB :=
  (db.any (fun img => img.id == image_id),
   db.map (fun img => if img.id == image_id then flipRecord img else img))

/-- The `ImageData` pydantic response model (source lines 31-39). -/
structure ImageData where
  id : String
  path : String
  folder_id : String
  thumbnailPath : String
  metadata : MetadataModel
  isTagged : Bool
  isFavourite : Bool
  tags : Option (List String)
deriving DecidableEq, Repr

/-- The `GetAllImagesResponse` pydantic model (source lines 42-45). -/
structure GetAllImagesResponse where
  success : Bool
  message : String
  data : List ImageData
deriving DecidableEq, Repr

/-- One element of the list comprehension of `get_all_images` (source lines
63-72): build an `ImageData` from a raw record; parsing the metadata may
raise.  `isFavourite` is `image.get("isFavourite", False)` (source line
70). -/
def buildImageData (image : RawImage) : Except PyExc ImageData :=
  match image_util_parse_metadata image.metadata with
  | .error e => .error e
  | .ok md =>
      .ok ⟨image.id, image.path, image.folder_id, image.thumbnailPath, md,
           rawIsTagged image, image.isFavourite.getD false, image.tags⟩

/-- The whole list comprehension (source lines 62-74): elements are built
left to right and the first raised exception aborts the comprehension. -/
def buildAll : List RawImage → Except PyExc (List ImageData)
  | [] => .ok []
  | image :: rest =>
      match buildImageData image with
      | .error e => .error e
      | .ok d =>
          match buildAll rest with
          | .error e => .error e
          | .ok ds => .ok (d :: ds)

/-- The `GET /` handler `get_all_images` (source lines 53-90): list the
records with the optional `tagged` filter, convert each to `ImageData`, and
wrap in a success envelope; any exception is caught and re-raised as a 500
with the structured `ErrorResponse` body. -/
def get_all_images (tagged : Option Bool) (db : DB) :
    Except HTTPExc GetAllImagesResponse :=
  match buildAll (db_get_all_images tagged db) with
  | .ok image_data =>
      .ok ⟨true,
           "Successfully retrieved " ++ toString image_data.length ++ " images",
           image_data⟩
  | .error e =>
      .error ⟨500, .body false "Internal server error"
                     ("Unable to retrieve images: " ++ pyExcStr e)⟩

/-- The dict returned by `toggle_favourite` on success (source lines
113-117). -/
structure ToggleFavouriteResponse where
  success : Bool
  image_id : String
  isFavourite : Bool
deriving DecidableEq, Repr

/-- The body of the `POST /toggle-favourite` handler (source lines 103-121),
as a function of the outcomes of its two repository calls: `success` is what
`db_toggle_image_favourite_status` returned, `refetched` is what the
subsequent `db_get_all_images()` returned.  The whole body sits in a `try`
whose only handler is `except Exception`, which catches the handler's own
`HTTPException(404)` as well as the `AttributeError` from `image.get` when
the refetch finds nothing, and re-raises either as a 500 whose detail is the
plain string `f"Internal server error: {e}"`. -/
def toggle_favourite_core (success : Bool) (refetched : List RawImage)
    (image_id : String) : Except HTTPExc ToggleFavouriteResponse :=
  let inner : Except PyExc ToggleFavouriteResponse :=
    if success then
      match refetched.find? (fun img => img.id == image_id) with
      | none => .error (.attributeError "NoneType object has no attribute get")
      | some image => .ok ⟨true, image_id, image.isFavourite.getD false⟩
    else
      .error (.httpException 404 "Image not found or failed to toggle")
  match inner with
  | .ok r => .ok r
  | .error e => .error ⟨500, .str ("Internal server error: " ++ pyExcStr e)⟩

/-- The `POST /toggle-favourite` handler run sequentially against one
repository state: the toggle call mutates the state, and the refetch reads
the mutated state. -/
def toggle_favourite (db : DB) (image_id : String) :
    Except HTTPExc ToggleFavouriteResponse × DB :=
  let res := db_toggle_image_favourite_status image_id db
  (toggle_favourite_core res.fst (db_get_all_images none res.snd) image_id,
   res.snd)

/-- `file_path.replace("\\", "/")` (source line 160): every backslash
becomes a forward slash. -/
def pyReplaceBackslash (p : String) : String :=
  String.mk (p.data.map (fun c => if c == '\\' then '/' else c))

/-- `os.path.basename` on a POSIX host (the backend serves from disk on the
server): the suffix of the path after the last `/`. -/
def os_path_basename (p : String) : String :=
  String.mk ((p.data.reverse.takeWhile (fun c => !(c == '/'))).reverse)

/-- The spec's wording for the suggested filename, written independently of
the source pipeline: "the last path segment after normalizing both forward-
and back-slash separators", i.e. the longest suffix containing neither
separator. -/
def specSuggestedFilename (p : String) : String :=
  String.mk ((p.data.reverse.takeWhile (fun c => !(c == '/' || c == '\\'))).reverse)

/-- What the source hands to `FileResponse` (source lines 162-166). -/
structure FileResponseModel where
  path : String
  filename : String
  media_type : String
deriving DecidableEq, Repr

/-- The `GET /download/{image_id}` handler (source lines 136-175): find the
record, 404 if absent; 404 if the stored path has no file on disk; otherwise
serve the file with the basename of the slash-normalized path and the
constant media type.  This handler re-raises `HTTPException` unchanged
(`except HTTPException as he: raise he`), so its 404s survive; no other
exception arises in the embedded fragment.  The second component is the
sequence of log lines the handler emits. -/
def download_image (fileExists : String → Bool) (db : DB) (image_id : String) :
    Except HTTPExc FileResponseModel × List String :=
  let log0 := "Attempting to download image with ID: " ++ image_id
  match (db_get_all_images none db).find? (fun img => img.id == image_id) with
  | none =>
      (.error ⟨404, .str "Image not found"⟩,
       [log0, "Image ID " ++ image_id ++ " not found in database"])
  | some image =>
      let file_path := image.path
      let log1 := "Found image. Path: " ++ file_path
      if fileExists file_path then
        (.ok ⟨file_path, os_path_basename (pyReplaceBackslash file_path),
              "application/octet-stream"⟩,
         [log0, log1])
      else
        (.error ⟨404, .str "File not found on disk"⟩,
         [log0, log1, "File does not exist on disk at path: " ++ file_path])

/-! ## Helper lemmas -/

theorem takeWhile_map_repl (m : List Char) :
    ((m.map (fun c => if c == '\\' then '/' else c)).takeWhile (fun c => !(c == '/')))
      = m.takeWhile (fun c => !(c == '/' || c == '\\')) := by
  induction m with
  | nil => rfl
  | cons c cs ih =>
    by_cases h1 : c = '\\'
    · subst h1
      simp [List.takeWhile_cons]
    · by_cases h2 : c = '/'
      · subst h2
        simp [List.takeWhile_cons]
      · have e1 : (if c == '\\' then '/' else c) = c := by simp [h1]
        have e2 : (!(c == '/')) = true := by simp [h2]
        have e3 : (!(c == '/' || c == '\\')) = true := by simp [h1, h2]
        simp only [List.map_cons, List.takeWhile_cons, e1, e2, e3, if_true]
        rw [ih]

/-- The source's filename pipeline (`os.path.basename` applied after
replacing every backslash with a slash) computes exactly the spec's "last
path segment after normalizing both separators". -/
theorem basename_replace (p : String) :
    os_path_basename (pyReplaceBackslash p) = specSuggestedFilename p := by
  unfold os_path_basename pyReplaceBackslash specSuggestedFilename
  have h : ((String.mk (p.data.map (fun c => if c == '\\' then '/' else c))).data).reverse
      = p.data.reverse.map (fun c => if c == '\\' then '/' else c) := by
    show (p.data.map _).reverse = _
    rw [← List.map_reverse]
  rw [h, takeWhile_map_repl]

/-- A successful download's filename is the basename of the slash-normalized
stored path, and its path is the stored path. -/
theorem download_ok_shape (fileExists : String → Bool) (db : DB) (image_id : String)
    (r : FileResponseModel)
    (h : (download_image fileExists db image_id).fst = .ok r) :
    r.filename = os_path_basename (pyReplaceBackslash r.path) ∧
    r.media_type = "application/octet-stream" := by
  unfold download_image at h
  cases hf : (db_get_all_images none db).find? (fun img => img.id == image_id) with
  | none => rw [hf] at h; exact absurd h (by simp)
  | some image =>
      rw [hf] at h
      by_cases he : fileExists image.path = true
      · simp only [he, if_true] at h
        cases h
        exact ⟨rfl, rfl⟩
      · simp only [he, if_false] at h
        exact absurd h (by simp)

theorem buildAll_ok_length (l : List RawImage) (l' : List ImageData)
    (h : buildAll l = .ok l') : l'.length = l.length := by
  induction l generalizing l' with
  | nil => cases h; rfl
  | cons a rest ih =>
    unfold buildAll at h
    cases hb : buildImageData a with
    | error e => rw [hb] at h; exact absurd h (by simp)
    | ok d =>
      rw [hb] at h
      cases hr : buildAll rest with
      | error e => rw [hr] at h; exact absurd h (by simp)
      | ok ds =>
        rw [hr] at h
        cases h
        simp [ih ds hr]

/-- A successful `buildAll` is element-wise `buildImageData`, in order. -/
theorem buildAll_ok_get (l : List RawImage) (l' : List ImageData)
    (h : buildAll l = .ok l') (k : Nat) (hk : k < l.length) (hk' : k < l'.length) :
    buildImageData (l.get ⟨k, hk⟩) = .ok (l'.get ⟨k, hk'⟩) := by
  induction l generalizing l' k with
  | nil => exact absurd hk (by simp)
  | cons a rest ih =>
    unfold buildAll at h
    cases hb : buildImageData a with
    | error e => rw [hb] at h; exact absurd h (by simp)
    | ok d =>
      rw [hb] at h
      cases hr : buildAll rest with
      | error e => rw [hr] at h; exact absurd h (by simp)
      | ok ds =>
        rw [hr] at h
        cases h
        cases k with
        | zero => simpa using hb
        | succ k =>
          have hk2 : k < rest.length := by simpa using hk
          have hk2' : k < ds.length := by simpa using hk'
          simpa using ih ds hr k hk2 hk2'

theorem buildAll_ok_of_forall (l : List RawImage)
    (h : ∀ a ∈ l, ∃ b, buildImageData a = .ok b) :
    ∃ l', buildAll l = .ok l' := by
  induction l with
  | nil => exact ⟨[], rfl⟩
  | cons a rest ih =>
    obtain ⟨b, hb⟩ := h a (by simp)
    obtain ⟨ds, hds⟩ := ih (fun x hx => h x (by simp [hx]))
    exact ⟨b :: ds, by unfold buildAll; rw [hb, hds]⟩

theorem buildAll_error_of_mem (l : List RawImage) (a : RawImage) (e : PyExc)
    (ha : a ∈ l) (he : buildImageData a = .error e) :
    ∃ e', buildAll l = .error e' := by
  induction l with
  | nil => exact absurd ha (by simp)
  | cons b rest ih =>
    cases hb : buildImageData b with
    | error eb => exact ⟨eb, by unfold buildAll; rw [hb]⟩
    | ok d =>
      rcases List.mem_cons.mp ha with h1 | h2
      · subst h1; rw [hb] at he; exact absurd he (by simp)
      · obtain ⟨e', he'⟩ := ih h2
        exact ⟨e', by unfold buildAll; rw [hb, he']⟩

/-- Toggling rewrites the first record found for an id to its flip: `find?`
on the post-toggle state is `find?` on the pre-toggle state with the match
flipped. -/
theorem toggle_find (db : DB) (image_id : String) :
    ((db_toggle_image_favourite_status image_id db).snd).find?
        (fun img => img.id == image_id)
      = (db.find? (fun img => img.id == image_id)).map flipRecord := by
  show (db.map _).find? _ = _
  induction db with
  | nil => rfl
  | cons a rest ih =>
    by_cases h : a.id = image_id
    · have hb : (a.id == image_id) = true := by simp [h]
      have hfb : ((flipRecord a).id == image_id) = true := hb
      simp only [List.map_cons, hb, if_true, List.find?_cons, hfb]
      rfl
    · have hb : (a.id == image_id) = false := by simp [h]
      simp only [List.map_cons, hb, if_false, List.find?_cons, ih]
      simp [hb]

/-! ## Concrete fixtures used by witnesses -/

/-- A fully-populated raw metadata mapping. -/
def mdRawOk : RawMetadata :=
  ⟨some "photo", none, some 100, some 80, some "/var/images/photo.jpg",
   some 1234, some "image/jpeg", none, none, none⟩

/-- The same metadata after normalization. -/
def mdParsed : MetadataModel :=
  ⟨"photo", none, 100, 80, "/var/images/photo.jpg", 1234, "image/jpeg",
   none, none, none⟩

/-- A raw metadata mapping with the required `name` key absent. -/
def mdRawBad : RawMetadata :=
  ⟨none, none, some 100, some 80, some "/var/images/bad.jpg",
   some 10, some "image/jpeg", none, none, none⟩

/-- An untagged record with a POSIX path and no `isFavourite` key. -/
def recPosix : RawImage :=
  ⟨"1", "/var/images/photo.jpg", "f1", "/thumbs/1.jpg", mdRawOk, none, some []⟩

/-- A tagged favourite record with a Windows path. -/
def recWin : RawImage :=
  ⟨"2", "C:\\images\\photo.jpg", "f2", "/thumbs/2.jpg", mdRawOk, some true,
   some ["cat"]⟩

/-- A record whose metadata fails normalization. -/
def recBad : RawImage :=
  ⟨"3", "/var/images/bad.jpg", "f3", "/thumbs/3.jpg", mdRawBad, none, none⟩

/-- A filesystem on which every path exists. -/
def allExist : String → Bool := fun _ => true

/-- A filesystem on which no path exists. -/
def noneExist : String → Bool := fun _ => false

/-- The successful download response for `recPosix`. -/
def fileRespPosix : FileResponseModel :=
  ⟨"/var/images/photo.jpg", "photo.jpg", "application/octet-stream"⟩

/-- The successful download response for `recWin`. -/
def fileRespWin : FileResponseModel :=
  ⟨"C:\\images\\photo.jpg", "photo.jpg", "application/octet-stream"⟩

/-! ## Claim theorems -/

/-- C10: every successful download response carries the constant media type
`"application/octet-stream"`; the stored metadata's `itemType` is never
consulted for the response content type (the theorem holds for every
repository state, whatever `item_type` the record stores). -/
theorem C10_download_media_type_constant (fileExists : String → Bool) (db : DB)
    (image_id : String) (r : FileResponseModel)
    (h : (download_image fileExists db image_id).fst = .ok r) :
    r.media_type = "application/octet-stream" :=
  (download_ok_shape fileExists db image_id r h).2

theorem C10_witness :
    (download_image allExist [recWin] "2").fst = .ok fileRespWin ∧
    fileRespWin.media_type = "application/octet-stream" :=
  ⟨rfl, C10_download_media_type_constant allExist [recWin] "2" fileRespWin rfl⟩

/-- C5: for every stored path, the suggested filename of a successful
download is the last path segment after normalizing both forward- and
back-slash separators; in particular `"photo.jpg"` for both
`"C:\\images\\photo.jpg"` and `"/var/images/photo.jpg"`. -/
theorem C5_download_suggested_filename :
    (∀ (fileExists : String → Bool) (db : DB) (image_id : String)
        (r : FileResponseModel),
        (download_image fileExists db image_id).fst = .ok r →
        r.filename = specSuggestedFilename r.path) ∧
    specSuggestedFilename "C:\\images\\photo.jpg" = "photo.jpg" ∧
    specSuggestedFilename "/var/images/photo.jpg" = "photo.jpg" := by
  refine ⟨?_, rfl, rfl⟩
  intro fileExists db image_id r h
  rw [(download_ok_shape fileExists db image_id r h).1, basename_replace]

theorem C5_witness :
    (download_image allExist [recWin] "2").fst = .ok fileRespWin ∧
    fileRespWin.filename = specSuggestedFilename fileRespWin.path ∧
    (download_image allExist [recPosix] "1").fst = .ok fileRespPosix ∧
    fileRespPosix.filename = specSuggestedFilename fileRespPosix.path :=
  ⟨rfl, C5_download_suggested_filename.1 allExist [recWin] "2" fileRespWin rfl,
   rfl, C5_download_suggested_filename.1 allExist [recPosix] "1" fileRespPosix rfl⟩

/-- C9: the download endpoint fails exactly when the id is absent from the
repository or the stored path has no file on disk; both causes surface as
HTTP 404 — never 500 — with distinct details, and each is logged with its
own message. -/
theorem C9_download_not_found_mapping (fileExists : String → Bool) (db : DB)
    (image_id : String) :
    (∀ e, (download_image fileExists db image_id).fst = .error e →
        e.status_code = 404) ∧
    ((∃ e, (download_image fileExists db image_id).fst = .error e) ↔
        ((db_get_all_images none db).find? (fun img => img.id == image_id) = none ∨
         (∃ img, (db_get_all_images none db).find? (fun img => img.id == image_id)
              = some img ∧ fileExists img.path = false))) ∧
    ((db_get_all_images none db).find? (fun img => img.id == image_id) = none →
        (download_image fileExists db image_id).fst
            = .error ⟨404, .str "Image not found"⟩ ∧
        ("Image ID " ++ image_id ++ " not found in database")
            ∈ (download_image fileExists db image_id).snd) ∧
    (∀ img, (db_get_all_images none db).find? (fun img => img.id == image_id)
          = some img →
        fileExists img.path = false →
        (download_image fileExists db image_id).fst
            = .error ⟨404, .str "File not found on disk"⟩ ∧
        ("File does not exist on disk at path: " ++ img.path)
            ∈ (download_image fileExists db image_id).snd) := by
  cases hf : (db_get_all_images none db).find? (fun img => img.id == image_id) with
  | none =>
      refine ⟨?_, ?_, ?_, ?_⟩
      · intro e he
        simp only [download_image, hf] at he
        cases he
        rfl
      · constructor
        · intro _
          exact Or.inl rfl
        · intro _
          exact ⟨⟨404, .str "Image not found"⟩, by simp only [download_image, hf]⟩
      · intro _
        constructor
        · simp only [download_image, hf]
        · simp [download_image, hf]
      · intro img himg
        exact absurd himg (by simp)
  | some image =>
      by_cases hex : fileExists image.path = true
      · refine ⟨?_, ?_, ?_, ?_⟩
        · intro e he
          simp only [download_image, hf, hex, if_true] at he
          exact absurd he (by simp)
        · constructor
          · intro ⟨e, he⟩
            simp only [download_image, hf, hex, if_true] at he
            exact absurd he (by simp)
          · intro h
            rcases h with h1 | ⟨img, h1, h2⟩
            · exact absurd h1 (by simp)
            · cases h1
              rw [hex] at h2
              exact absurd h2 (by simp)
        · intro h0
          exact absurd h0 (by simp)
        · intro img h1 h2
          cases h1
          rw [h2] at hex
          exact absurd hex (by simp)
      · have hex' : fileExists image.path = false := by
          cases h : fileExists image.path
          · rfl
          · exact absurd h hex
        refine ⟨?_, ?_, ?_, ?_⟩
        · intro e he
          simp only [download_image, hf, hex', if_false] at he
          cases he
          rfl
        · constructor
          · intro _
            exact Or.inr ⟨image, rfl, hex'⟩
          · intro _
            exact ⟨⟨404, .str "File not found on disk"⟩,
                   by simp [download_image, hf, hex']⟩
        · intro h0
          exact absurd h0 (by simp)
        · intro img h1 h2
          cases h1
          constructor
          · simp [download_image, hf, hex']
          · simp [download_image, hf, hex']

theorem C9_witness :
    ((download_image allExist [] "zzz").fst
        = .error ⟨404, Detail.str "Image not found"⟩ ∧
     ("Image ID " ++ "zzz" ++ " not found in database")
        ∈ (download_image allExist [] "zzz").snd) ∧
    ((download_image noneExist [recPosix] "1").fst
        = .error ⟨404, Detail.str "File not found on disk"⟩ ∧
     ("File does not exist on disk at path: " ++ recPosix.path)
        ∈ (download_image noneExist [recPosix] "1").snd) :=
  ⟨(C9_download_not_found_mapping allExist [] "zzz").2.2.1 rfl,
   (C9_download_not_found_mapping noneExist [recPosix] "1").2.2.2 recPosix rfl rfl⟩

/-- C1: the claim says an unknown or not-toggled id fails with HTTP 404 and
never 500.  The code violates this: the handler's own `HTTPException(404)`
is raised inside the `try` block whose bare `except Exception` catches it
(FastAPI's `HTTPException` subclasses `Exception`) and re-raises it as a
500.  Evaluating the handler on a repository without the id shows the
surfaced status is 500, carrying the swallowed 404 only inside the message
string. -/
theorem C1_toggle_missing_id_surfaces_500 :
    (toggle_favourite [] "nonexistent").fst
      = .error ⟨500,
          .str "Internal server error: 404: Image not found or failed to toggle"⟩ :=
  rfl

/-- Naive decidable substring check: `pat` occurs somewhere in `s`. -/
def containsSub (s pat : String) : Bool :=
  (List.range (s.data.length + 1)).any
    (fun i => pat.data.isPrefixOf (s.data.drop i))

/-- C6 counterexample: when the toggle reports success but the re-read list
does not contain the id, the handler surfaces a 500 whose detail is the
generic null-attribute-access message, which does not mention any
"post-toggle inconsistency" reason. -/
theorem C6_counterexample :
    toggle_favourite_core true [] "1"
      = .error ⟨500,
          .str "Internal server error: NoneType object has no attribute get"⟩ ∧
    containsSub "Internal server error: NoneType object has no attribute get"
        "post-toggle inconsistency" = false :=
  ⟨rfl, by decide⟩

/-- C6 amended: a refetch miss after a successful toggle surfaces as
`InternalError` (HTTP 500), but its reason is the generic
null-attribute-access fault message, not a distinct "post-toggle
inconsistency" reason. -/
theorem C6_amended_refetch_miss (refetched : List RawImage) (image_id : String)
    (h : refetched.find? (fun img => img.id == image_id) = none) :
    toggle_favourite_core true refetched image_id
      = .error ⟨500,
          .str "Internal server error: NoneType object has no attribute get"⟩ ∧
    containsSub "Internal server error: NoneType object has no attribute get"
        "post-toggle inconsistency" = false := by
  constructor
  · simp [toggle_favourite_core, h, pyExcStr]
  · decide

theorem C6_witness :
    toggle_favourite_core true [] "zz"
      = .error ⟨500,
          .str "Internal server error: NoneType object has no attribute get"⟩ ∧
    containsSub "Internal server error: NoneType object has no attribute get"
        "post-toggle inconsistency" = false :=
  C6_amended_refetch_miss [] "zz" rfl

/-- The error branch of `toggle_favourite_core` always surfaces a 500 with a
plain string detail, whatever the repository reported. -/
theorem toggle_core_error_shape (success : Bool) (refetched : List RawImage)
    (image_id : String) (e : HTTPExc)
    (h : toggle_favourite_core success refetched image_id = .error e) :
    e.status_code = 500 ∧ ∃ s, e.detail = .str s := by
  unfold toggle_favourite_core at h
  cases success with
  | false =>
      cases h
      exact ⟨rfl, _, rfl⟩
  | true =>
      cases hf : refetched.find? (fun img => img.id == image_id) with
      | none =>
          simp only [hf] at h
          cases h
          exact ⟨rfl, _, rfl⟩
      | some image =>
          simp only [hf] at h
          exact absurd h (by simp)

/-- C7 counterexample: the download endpoint's not-found failure carries a
plain string detail, not the structured `{success:false, error, message}`
body the claim requires of every error outcome. -/
theorem C7_counterexample :
    (download_image allExist ([] : DB) "zzz").fst
      = .error ⟨404, .str "Image not found"⟩ ∧
    Detail.isStructured (Detail.str "Image not found") = false :=
  ⟨rfl, rfl⟩

/-- C7 amended: every error outcome is mapped to 404 or 500 — never 400;
only the list endpoint's failures (all 500) carry the structured body
`{success:false, error, message}`; the toggle endpoint surfaces every
failure, not-found included, as a 500 with a plain string detail; the
download endpoint surfaces its failures as 404 with a plain string
detail. -/
theorem C7_amended_error_mapping :
    (∀ (tagged : Option Bool) (db : DB) (e : HTTPExc),
        get_all_images tagged db = .error e →
        e.status_code = 500 ∧
        ∃ msg, e.detail = .body false "Internal server error" msg) ∧
    (∀ (db : DB) (image_id : String) (e : HTTPExc),
        (toggle_favourite db image_id).fst = .error e →
        e.status_code = 500 ∧ ∃ s, e.detail = .str s) ∧
    (∀ (fileExists : String → Bool) (db : DB) (image_id : String) (e : HTTPExc),
        (download_image fileExists db image_id).fst = .error e →
        e.status_code = 404 ∧ ∃ s, e.detail = .str s) := by
  refine ⟨?_, ?_, ?_⟩
  · intro tagged db e h
    unfold get_all_images at h
    cases hb : buildAll (db_get_all_images tagged db) with
    | ok l => rw [hb] at h; exact absurd h (by simp)
    | error e' =>
        rw [hb] at h
        cases h
        exact ⟨rfl, _, rfl⟩
  · intro db image_id e h
    exact toggle_core_error_shape
      ((db_toggle_image_favourite_status image_id db).fst)
      (db_get_all_images none ((db_toggle_image_favourite_status image_id db).snd))
      image_id e h
  · intro fileExists db image_id e h
    cases hf : (db_get_all_images none db).find? (fun img => img.id == image_id) with
    | none =>
        simp only [download_image, hf] at h
        cases h
        exact ⟨rfl, _, rfl⟩
    | some image =>
        by_cases hex : fileExists image.path = true
        · simp only [download_image, hf, hex, if_true] at h
          exact absurd h (by simp)
        · have hex' : fileExists image.path = false := by
            cases hh : fileExists image.path
            · rfl
            · exact absurd hh hex
          simp only [download_image, hf, hex'] at h
          cases h
          exact ⟨rfl, _, rfl⟩

/-- The error the list endpoint produces on `recBad`. -/
def errListW : HTTPExc :=
  ⟨500, .body false "Internal server error"
      "Unable to retrieve images: missing required metadata field"⟩

/-- The error the toggle endpoint produces on an unknown id. -/
def errToggleW : HTTPExc :=
  ⟨500, .str "Internal server error: 404: Image not found or failed to toggle"⟩

/-- The error the download endpoint produces on an unknown id. -/
def errDownW : HTTPExc :=
  ⟨404, .str "Image not found"⟩

theorem C7_witness :
    (errListW.status_code = 500 ∧
     ∃ msg, errListW.detail = .body false "Internal server error" msg) ∧
    (errToggleW.status_code = 500 ∧ ∃ s, errToggleW.detail = .str s) ∧
    (errDownW.status_code = 404 ∧ ∃ s, errDownW.detail = .str s) :=
  ⟨C7_amended_error_mapping.1 none [recBad] errListW rfl,
   C7_amended_error_mapping.2.1 [] "zzz" errToggleW rfl,
   C7_amended_error_mapping.2.2 allExist [] "zzz" errDownW rfl⟩

/-- A successfully built `ImageData` copies the raw record's fields:
id, path, derived `isTagged`, defaulted `isFavourite`, and tags. -/
theorem buildImageData_ok_fields (raw : RawImage) (d : ImageData)
    (h : buildImageData raw = .ok d) :
    d.id = raw.id ∧ d.path = raw.path ∧ d.isTagged = rawIsTagged raw ∧
    d.isFavourite = raw.isFavourite.getD false ∧ d.tags = raw.tags := by
  unfold buildImageData at h
  cases hp : image_util_parse_metadata raw.metadata with
  | error e => rw [hp] at h; exact absurd h (by simp)
  | ok md =>
      rw [hp] at h
      cases h
      exact ⟨rfl, rfl, rfl, rfl, rfl⟩

/-- A successful `get_all_images` response is the envelope around the
element-wise conversion of the repository listing. -/
theorem get_all_images_ok_data (tagged : Option Bool) (db : DB)
    (resp : GetAllImagesResponse)
    (h : get_all_images tagged db = .ok resp) :
    buildAll (db_get_all_images tagged db) = .ok resp.data := by
  unfold get_all_images at h
  cases hb : buildAll (db_get_all_images tagged db) with
  | error e => rw [hb] at h; exact absurd h (by simp)
  | ok l =>
      rw [hb] at h
      cases h
      rfl

/-- C2: a record lacking the `isFavourite` key is surfaced with
`isFavourite = false` — the response field is a `Bool`, so it can never be
absent or null — both in every element of the list response and in the
toggle response. -/
theorem C2_isFavourite_defaults_false :
    (∀ (tagged : Option Bool) (db : DB) (resp : GetAllImagesResponse),
        get_all_images tagged db = .ok resp →
        ∀ (k : Nat) (hk : k < (db_get_all_images tagged db).length)
          (hk' : k < resp.data.length),
          ((db_get_all_images tagged db).get ⟨k, hk⟩).isFavourite = none →
          (resp.data.get ⟨k, hk'⟩).isFavourite = false) ∧
    (∀ (refetched : List RawImage) (image_id : String)
        (r : ToggleFavouriteResponse),
        toggle_favourite_core true refetched image_id = .ok r →
        ∀ img, refetched.find? (fun i => i.id == image_id) = some img →
          img.isFavourite = none → r.isFavourite = false) := by
  constructor
  · intro tagged db resp hresp k hk hk' hnone
    have hdata := get_all_images_ok_data tagged db resp hresp
    have hget := buildAll_ok_get (db_get_all_images tagged db) resp.data hdata k hk hk'
    have hfields := buildImageData_ok_fields _ _ hget
    rw [hfields.2.2.2.1, hnone]
    rfl
  · intro refetched image_id r hcore img hfind hnone
    unfold toggle_favourite_core at hcore
    rw [hfind] at hcore
    cases hcore
    rw [hnone]
    rfl

/-- The list response for a repository holding only `recPosix`. -/
def respPosixOnly : GetAllImagesResponse :=
  ⟨true, "Successfully retrieved 1 images",
   [⟨"1", "/var/images/photo.jpg", "f1", "/thumbs/1.jpg", mdParsed,
     false, false, some []⟩]⟩

theorem C2_witness :
    get_all_images none [recPosix] = .ok respPosixOnly ∧
    recPosix.isFavourite = none ∧
    (respPosixOnly.data.get ⟨0, by decide⟩).isFavourite = false ∧
    toggle_favourite_core true [recPosix] "1"
      = .ok ⟨true, "1", false⟩ ∧
    (ToggleFavouriteResponse.mk true "1" false).isFavourite = false :=
  ⟨rfl, rfl,
   C2_isFavourite_defaults_false.1 none [recPosix] respPosixOnly rfl 0
     (by decide) (by decide) rfl,
   rfl,
   C2_isFavourite_defaults_false.2 [recPosix] "1" ⟨true, "1", false⟩ rfl
     recPosix rfl rfl⟩

/-- C3: the listing is all-or-nothing: if any listed record's metadata fails
normalization, the whole call fails with a 500 `InternalError` and no
partial data is returned; if every record normalizes, the call succeeds with
one response element per listed record. -/
theorem C3_list_all_or_nothing :
    (∀ (tagged : Option Bool) (db : DB) (raw : RawImage) (e : PyExc),
        raw ∈ db_get_all_images tagged db →
        image_util_parse_metadata raw.metadata = .error e →
        ∃ err, get_all_images tagged db = .error err ∧ err.status_code = 500) ∧
    (∀ (tagged : Option Bool) (db : DB),
        (∀ raw ∈ db_get_all_images tagged db,
            ∃ md, image_util_parse_metadata raw.metadata = .ok md) →
        ∃ resp, get_all_images tagged db = .ok resp ∧
          resp.data.length = (db_get_all_images tagged db).length) := by
  constructor
  · intro tagged db raw e hmem hparse
    have hbuild : buildImageData raw = .error e := by
      unfold buildImageData
      rw [hparse]
    obtain ⟨e', he'⟩ :=
      buildAll_error_of_mem (db_get_all_images tagged db) raw e hmem hbuild
    refine ⟨⟨500, .body false "Internal server error"
        ("Unable to retrieve images: " ++ pyExcStr e')⟩, ?_, rfl⟩
    unfold get_all_images
    rw [he']
  · intro tagged db hall
    have hok : ∀ raw ∈ db_get_all_images tagged db,
        ∃ d, buildImageData raw = .ok d := by
      intro raw hmem
      obtain ⟨md, hmd⟩ := hall raw hmem
      refine ⟨⟨raw.id, raw.path, raw.folder_id, raw.thumbnailPath, md,
               rawIsTagged raw, raw.isFavourite.getD false, raw.tags⟩, ?_⟩
      unfold buildImageData
      rw [hmd]
    obtain ⟨l', hl'⟩ := buildAll_ok_of_forall (db_get_all_images tagged db) hok
    refine ⟨⟨true, "Successfully retrieved " ++ toString l'.length ++ " images", l'⟩,
            ?_, ?_⟩
    · unfold get_all_images
      rw [hl']
    · exact buildAll_ok_length (db_get_all_images tagged db) l' hl'

theorem C3_witness :
    get_all_images none [recBad] = .error errListW ∧
    errListW.status_code = 500 ∧
    (∃ err, get_all_images none [recBad] = .error err ∧ err.status_code = 500) ∧
    (∃ resp, get_all_images none [recPosix] = .ok resp ∧
        resp.data.length = (db_get_all_images none [recPosix]).length) :=
  ⟨rfl, rfl,
   C3_list_all_or_nothing.1 none [recBad] recBad
     (.validationError "missing required metadata field")
     (List.mem_singleton.mpr rfl) rfl,
   C3_list_all_or_nothing.2 none [recPosix]
     (fun raw hmem => by
        have hm : raw ∈ [recPosix] := hmem
        have hr : raw = recPosix := by simpa using hm
        exact ⟨mdParsed, by rw [hr]; rfl⟩)⟩

/-- C4: `listImages(true)` returns exactly the records with non-empty tags,
`listImages(false)` exactly those with empty or absent tags, and an absent
filter returns everything; the repository order is preserved — the k-th
response element is the k-th listed record (same id, same tags), with one
response element per record. -/
theorem C4_filter_and_order :
    (∀ db : DB, db_get_all_images (some true) db
        = db.filter (fun img => !(img.tags.getD []).isEmpty)) ∧
    (∀ db : DB, db_get_all_images (some false) db
        = db.filter (fun img => (img.tags.getD []).isEmpty)) ∧
    (∀ db : DB, db_get_all_images none db = db) ∧
    (∀ (tagged : Option Bool) (db : DB) (resp : GetAllImagesResponse),
        get_all_images tagged db = .ok resp →
        resp.data.length = (db_get_all_images tagged db).length ∧
        ∀ (k : Nat) (hk : k < resp.data.length)
          (hk' : k < (db_get_all_images tagged db).length),
          (resp.data.get ⟨k, hk⟩).id
              = ((db_get_all_images tagged db).get ⟨k, hk'⟩).id ∧
          (resp.data.get ⟨k, hk⟩).tags
              = ((db_get_all_images tagged db).get ⟨k, hk'⟩).tags) := by
  refine ⟨?_, ?_, fun db => rfl, ?_⟩
  · intro db
    show db.filter (fun img => rawIsTagged img == true) = _
    have hfun : (fun img => rawIsTagged img == true)
        = (fun img : RawImage => !(img.tags.getD []).isEmpty) := by
      funext img
      simp [rawIsTagged]
    rw [hfun]
  · intro db
    show db.filter (fun img => rawIsTagged img == false) = _
    have hfun : (fun img => rawIsTagged img == false)
        = (fun img : RawImage => (img.tags.getD []).isEmpty) := by
      funext img
      simp [rawIsTagged]
    rw [hfun]
  · intro tagged db resp hresp
    have hdata := get_all_images_ok_data tagged db resp hresp
    refine ⟨buildAll_ok_length _ _ hdata, ?_⟩
    intro k hk hk'
    have hget := buildAll_ok_get _ _ hdata k hk' hk
    have hfields := buildImageData_ok_fields _ _ hget
    exact ⟨hfields.1, hfields.2.2.2.2⟩

/-- The repository holding the untagged `recPosix` and the tagged `recWin`. -/
def dbBoth : DB := [recPosix, recWin]

/-- The list response for `dbBoth` without a filter. -/
def respBoth : GetAllImagesResponse :=
  ⟨true, "Successfully retrieved 2 images",
   [⟨"1", "/var/images/photo.jpg", "f1", "/thumbs/1.jpg", mdParsed,
     false, false, some []⟩,
    ⟨"2", "C:\\images\\photo.jpg", "f2", "/thumbs/2.jpg", mdParsed,
     true, true, some ["cat"]⟩]⟩

theorem C4_witness :
    db_get_all_images (some true) dbBoth
      = dbBoth.filter (fun img => !(img.tags.getD []).isEmpty) ∧
    get_all_images none dbBoth = .ok respBoth ∧
    respBoth.data.length = (db_get_all_images none dbBoth).length ∧
    (respBoth.data.get ⟨0, by decide⟩).id
      = ((db_get_all_images none dbBoth).get ⟨0, by decide⟩).id :=
  ⟨C4_filter_and_order.1 dbBoth, rfl,
   (C4_filter_and_order.2.2.2 none dbBoth respBoth rfl).1,
   ((C4_filter_and_order.2.2.2 none dbBoth respBoth rfl).2 0
      (by decide) (by decide)).1⟩

/-- C8: toggling an existing id twice restores the original `isFavourite`
value, and each call's response equals the post-toggle value read back from
the refetched list. -/
theorem C8_toggle_twice_round_trip (db : DB) (image_id : String) (img : RawImage)
    (h : (db_get_all_images none db).find? (fun i => i.id == image_id) = some img) :
    ∃ r1 db1 r2 db2,
      toggle_favourite db image_id = (.ok r1, db1) ∧
      toggle_favourite db1 image_id = (.ok r2, db2) ∧
      r1.isFavourite = !(img.isFavourite.getD false) ∧
      r2.isFavourite = img.isFavourite.getD false ∧
      (∀ img1,
        (db_get_all_images none db1).find? (fun i => i.id == image_id)
            = some img1 →
        r1.isFavourite = img1.isFavourite.getD false) := by
  have hdb : db.find? (fun i => i.id == image_id) = some img := h
  have hp : (fun i : RawImage => i.id == image_id) img = true :=
    @List.find?_some _ (fun i : RawImage => i.id == image_id) img db hdb
  have hmem : img ∈ db := List.mem_of_find?_eq_some hdb
  have hany : db.any (fun i => i.id == image_id) = true := List.any_of_mem hmem hp
  have hfind1 : ((db_toggle_image_favourite_status image_id db).snd).find?
      (fun i => i.id == image_id) = some (flipRecord img) := by
    rw [toggle_find db image_id, hdb]
    rfl
  have hcore1 : toggle_favourite_core true
      ((db_toggle_image_favourite_status image_id db).snd) image_id
      = .ok ⟨true, image_id, !(img.isFavourite.getD false)⟩ := by
    unfold toggle_favourite_core
    rw [hfind1]
    rfl
  have hfst1 : toggle_favourite db image_id
      = (.ok ⟨true, image_id, !(img.isFavourite.getD false)⟩,
         (db_toggle_image_favourite_status image_id db).snd) := by
    show (toggle_favourite_core (db.any (fun i => i.id == image_id))
        ((db_toggle_image_favourite_status image_id db).snd) image_id,
        (db_toggle_image_favourite_status image_id db).snd) = _
    rw [hany, hcore1]
  have hp1 : (fun i : RawImage => i.id == image_id) (flipRecord img) = true := hp
  have hmem1 : flipRecord img ∈ (db_toggle_image_favourite_status image_id db).snd :=
    List.mem_of_find?_eq_some hfind1
  have hany1 : ((db_toggle_image_favourite_status image_id db).snd).any
      (fun i => i.id == image_id) = true := List.any_of_mem hmem1 hp1
  have hfind2 : ((db_toggle_image_favourite_status image_id
        ((db_toggle_image_favourite_status image_id db).snd)).snd).find?
      (fun i => i.id == image_id) = some (flipRecord (flipRecord img)) := by
    rw [toggle_find ((db_toggle_image_favourite_status image_id db).snd) image_id,
        hfind1]
    rfl
  have hcore2 : toggle_favourite_core true
      ((db_toggle_image_favourite_status image_id
        ((db_toggle_image_favourite_status image_id db).snd)).snd) image_id
      = .ok ⟨true, image_id, img.isFavourite.getD false⟩ := by
    unfold toggle_favourite_core
    rw [hfind2]
    show Except.ok (ToggleFavouriteResponse.mk true image_id
        (!!(img.isFavourite.getD false))) = _
    rw [Bool.not_not]
  have hfst2 : toggle_favourite
      ((db_toggle_image_favourite_status image_id db).snd) image_id
      = (.ok ⟨true, image_id, img.isFavourite.getD false⟩,
         (db_toggle_image_favourite_status image_id
           ((db_toggle_image_favourite_status image_id db).snd)).snd) := by
    show (toggle_favourite_core
        (((db_toggle_image_favourite_status image_id db).snd).any
          (fun i => i.id == image_id))
        ((db_toggle_image_favourite_status image_id
          ((db_toggle_image_favourite_status image_id db).snd)).snd) image_id,
        (db_toggle_image_favourite_status image_id
          ((db_toggle_image_favourite_status image_id db).snd)).snd) = _
    rw [hany1, hcore2]
  refine ⟨⟨true, image_id, !(img.isFavourite.getD false)⟩,
          (db_toggle_image_favourite_status image_id db).snd,
          ⟨true, image_id, img.isFavourite.getD false⟩,
          (db_toggle_image_favourite_status image_id
            ((db_toggle_image_favourite_status image_id db).snd)).snd,
          hfst1, hfst2, rfl, rfl, ?_⟩
  intro img1 himg1
  have himg1' : ((db_toggle_image_favourite_status image_id db).snd).find?
      (fun i => i.id == image_id) = some img1 := himg1
  rw [hfind1] at himg1'
  cases himg1'
  rfl

theorem C8_witness :
    ∃ r1 db1 r2 db2,
      toggle_favourite [recWin] "2" = (.ok r1, db1) ∧
      toggle_favourite db1 "2" = (.ok r2, db2) ∧
      r1.isFavourite = !(recWin.isFavourite.getD false) ∧
      r2.isFavourite = recWin.isFavourite.getD false ∧
      (∀ img1,
        (db_get_all_images none db1).find? (fun i => i.id == "2") = some img1 →
        r1.isFavourite = img1.isFavourite.getD false) :=
  C8_toggle_twice_round_trip [recWin] "2" recWin rfl
